import Mathlib

/- Shallow embedding of src/geoschem_testing.py: the DynamoDB tagged-value
codec, the primary-key classifier (Python re semantics modelled by an
executable backtracking matcher), the registry record model, and the
new-difference-plot request builder. Python exceptions are modelled with
Except; Python None is a PyVal constructor and a field holding None is an
Option that is none. -/

set_option maxRecDepth 4000

/-- Python exceptions raised by the embedded code. -/
inductive PyErr where
  | typeError (msg : String)
  | valueError (msg : String)
  | keyError (msg : String)
  | attributeError (msg : String)
  | runtimeError (msg : String)
  deriving DecidableEq

/- Python values handled by the module: str, bool, None, list, dict. -/
mutual
inductive PyVal where
  | str (s : String)
  | bool (b : Bool)
  | none
  | list (l : PyList)
  | dict (d : PyDict)
inductive PyList where
  | nil
  | cons (hd : PyVal) (tl : PyList)
inductive PyDict where
  | nil
  | cons (key : String) (val : PyVal) (tl : PyDict)
end

deriving instance DecidableEq for PyVal, PyList, PyDict

deriving instance DecidableEq for Except

/-- Build a PyList from a Lean list literal. -/
def pl : List PyVal → PyList
  | [] => .nil
  | v :: t => .cons v (pl t)

/-- Build a PyDict from a Lean association-list literal. -/
def pd : List (String × PyVal) → PyDict
  | [] => .nil
  | (k, v) :: t => .cons k v (pd t)

/-- Number of key-value pairs (Python len of the dict). -/
def dictLen : PyDict → Nat
  | .nil => 0
  | .cons _ _ t => dictLen t + 1

/-- Python dict lookup (d.get(k)): assignment order means the last
occurrence of a key wins. Returns Option.none when the key is absent. -/
def dGet : PyDict → String → Option PyVal
  | .nil, _ => Option.none
  | .cons k v t, key =>
    match dGet t key with
    | some w => some w
    | Option.none => if k == key then some v else Option.none

/- == dynamodb_encode_item / dynamodb_encode_dict (src lines 14-30) == -/

mutual
def dynamodb_encode_item : PyVal → Except PyErr PyVal
  | .str s => .ok (.dict (.cons "S" (.str s) .nil))
  | .bool b => .ok (.dict (.cons "BOOL" (.bool b) .nil))
  | .list l => (dynamodb_encode_item_list l).map (fun es => .dict (.cons "L" (.list es) .nil))
  | .dict d => (dynamodb_encode_dict d).map (fun m => .dict (.cons "M" (.dict m) .nil))
  | .none => .error (.typeError "Invalid type for encoding: NoneType")
def dynamodb_encode_item_list : PyList → Except PyErr PyList
  | .nil => .ok .nil
  | .cons v t => do
    let v2 ← dynamodb_encode_item v
    let t2 ← dynamodb_encode_item_list t
    .ok (.cons v2 t2)
def dynamodb_encode_dict : PyDict → Except PyErr PyDict
  | .nil => .ok .nil
  | .cons k v t => do
    let v2 ← dynamodb_encode_item v
    let t2 ← dynamodb_encode_dict t
    .ok (.cons k v2 t2)
end

/- == dynamodb_decode_item / dynamodb_decode_dict (src lines 33-50) ==
The code first checks the node is a dict (TypeError otherwise), then that
it has exactly one key-value pair (ValueError otherwise), then recurses
into a list or dict payload and returns any other payload unchanged. -/

mutual
def dynamodb_decode_item : PyVal → Except PyErr PyVal
  | .dict d =>
    match d with
    | .cons _ item .nil =>
      match item with
      | .list es => (dynamodb_decode_item_list es).map PyVal.list
      | .dict m => (dynamodb_decode_dict m).map PyVal.dict
      | v => .ok v
    | _ => .error (.valueError "Number of key-value pairs in DynamoDB dict is not one.")
  | _ => .error (.typeError "Value of DynamoDB dict is not a nested dict.")
def dynamodb_decode_item_list : PyList → Except PyErr PyList
  | .nil => .ok .nil
  | .cons v t => do
    let v2 ← dynamodb_decode_item v
    let t2 ← dynamodb_decode_item_list t
    .ok (.cons v2 t2)
def dynamodb_decode_dict : PyDict → Except PyErr PyDict
  | .nil => .ok .nil
  | .cons k v t => do
    let v2 ← dynamodb_decode_item v
    let t2 ← dynamodb_decode_dict t
    .ok (.cons k v2 t2)
end

/- Native values the codec is specified over: strings, booleans, ordered
sequences and mappings, recursively (Python None excluded). -/
mutual
def isNative : PyVal → Bool
  | .str _ => true
  | .bool _ => true
  | .none => false
  | .list l => isNativeList l
  | .dict d => isNativeDict d
def isNativeList : PyList → Bool
  | .nil => true
  | .cons v t => isNative v && isNativeList t
def isNativeDict : PyDict → Bool
  | .nil => true
  | .cons _ v t => isNative v && isNativeDict t
end

/- == Python re semantics ==
A backtracking matcher in continuation-passing style over lists of
characters. Alternation tries the left branch first and a greedy star
tries to consume another body iteration before falling back to the
continuation, which is exactly Python's backtracking order for the
regexes used here (none of their starred bodies can match the empty
string). The fuel argument only bounds recursion depth; the entry points
supply fuel that is far larger than any possible backtracking depth,
namely (size of the regex + 2) * (length of the string + 2). -/

inductive Regex where
  | eps
  | pred (p : Char → Bool)
  | cat (r1 r2 : Regex)
  | alt (r1 r2 : Regex)
  | star (r : Regex)

def sizeR : Regex → Nat
  | .eps => 1
  | .pred _ => 1
  | .cat r1 r2 => sizeR r1 + sizeR r2 + 1
  | .alt r1 r2 => sizeR r1 + sizeR r2 + 1
  | .star r => sizeR r + 1

def matchR : Nat → Regex → List Char → (List Char → Option (List Char)) → Option (List Char)
  | 0, _, _, _ => Option.none
  | _ + 1, .eps, s, k => k s
  | _ + 1, .pred p, s, k =>
    match s with
    | [] => Option.none
    | c :: t => if p c then k t else Option.none
  | fuel + 1, .cat r1 r2, s, k => matchR fuel r1 s (fun s1 => matchR fuel r2 s1 k)
  | fuel + 1, .alt r1 r2, s, k =>
    (matchR fuel r1 s k).orElse (fun _ => matchR fuel r2 s k)
  | fuel + 1, .star r, s, k =>
    (matchR fuel r s (fun s1 =>
      if s1.length < s.length then matchR fuel (.star r) s1 k else Option.none)).orElse
      (fun _ => k s)

/-- Fuel supplied to the matcher at its entry points. -/
def matcherFuel (r : Regex) (s : List Char) : Nat := (sizeR r + 2) * (s.length + 2)

/-- Try to match the regex at the start of s (Python re.match without
anchors); on success return the matched characters (match.group(0)). -/
def reTryAt (r : Regex) (s : List Char) : Option (List Char) :=
  match matchR (matcherFuel r s) r s (fun rest => some rest) with
  | some rest => some (s.take (s.length - rest.length))
  | Option.none => Option.none

/-- Python re.search: the leftmost position where the regex matches wins,
and at that position the backtracking-first match is returned. -/
def reSearchIn (r : Regex) : List Char → Option (List Char)
  | [] => reTryAt r []
  | c :: t =>
    match reTryAt r (c :: t) with
    | some m => some m
    | Option.none => reSearchIn r t

/-- Python re.match on a pattern anchored as caret ... dollar: the dollar
also matches just before a trailing newline. -/
def reFullMatch (r : Regex) (s : List Char) : Bool :=
  (matchR (matcherFuel r s) r s (fun rest =>
    if rest.isEmpty || rest == ['\n'] then some rest else Option.none)).isSome

/- character classes used by the patterns -/

def isDigitC (c : Char) : Bool := '0' ≤ c && c ≤ '9'
def isNonZeroDigitC (c : Char) : Bool := '1' ≤ c && c ≤ '9'
def isHexLowerC (c : Char) : Bool := ('0' ≤ c && c ≤ '9') || ('a' ≤ c && c ≤ 'f')
def isAlphaDashC (c : Char) : Bool :=
  ('a' ≤ c && c ≤ 'z') || ('A' ≤ c && c ≤ 'Z') || c == '-'
def isAlnumDashC (c : Char) : Bool :=
  ('0' ≤ c && c ≤ '9') || ('a' ≤ c && c ≤ 'z') || ('A' ≤ c && c ≤ 'Z') || c == '-'

def rChar (c : Char) : Regex := .pred (fun x => x == c)

def rStr (s : String) : Regex := s.toList.foldr (fun c r => .cat (rChar c) r) .eps

def rOpt (r : Regex) : Regex := .alt r .eps

def rPlus (r : Regex) : Regex := .cat r (.star r)

/- == the patterns of PrimaryKeyClassification.__post_init__ (src lines 65-67) == -/

/-- The numeric component 0 or nonzero-digit digits of semver_re. -/
def rNum : Regex := .alt (rChar '0') (.cat (.pred isNonZeroDigitC) (.star (.pred isDigitC)))

/-- One dotted identifier of the semver pre-release part. -/
def rPreId : Regex :=
  .alt (rChar '0')
    (.alt (.cat (.pred isNonZeroDigitC) (.star (.pred isDigitC)))
      (.cat (.star (.pred isDigitC)) (.cat (.pred isAlphaDashC) (.star (.pred isAlnumDashC)))))

/-- semver_re: major.minor.patch with optional pre-release and build parts. -/
def rSemver : Regex :=
  .cat rNum (.cat (rChar '.') (.cat rNum (.cat (rChar '.') (.cat rNum
    (.cat (rOpt (.cat (rChar '-') (.cat rPreId (.star (.cat (rChar '.') rPreId)))))
      (rOpt (.cat (rChar '+') (.cat (rPlus (.pred isAlnumDashC))
        (.star (.cat (rChar '.') (rPlus (.pred isAlnumDashC))))))))))))

/-- commit_hash_re: exactly seven lowercase hexadecimal characters. -/
def rHash : Regex :=
  .cat (.pred isHexLowerC) (.cat (.pred isHexLowerC) (.cat (.pred isHexLowerC)
    (.cat (.pred isHexLowerC) (.cat (.pred isHexLowerC) (.cat (.pred isHexLowerC)
      (.pred isHexLowerC))))))

/-- The resolution alternatives of simulation_re, in source order. -/
def rRes : Regex :=
  .alt (rStr "2x25") (.alt (rStr "2x2.5") (.alt (rStr "4x5")
    (.alt (.cat (rOpt (rChar 'c')) (rStr "24"))
      (.alt (.cat (rOpt (rChar 'c')) (rStr "48"))
        (.alt (.cat (rOpt (rChar 'c')) (rStr "90"))
          (.cat (rOpt (rChar 'c')) (rStr "180")))))))

/-- simulation_re: engine, optional resolution, cadence, version, optional
.bd marker. -/
def rSim : Regex :=
  .cat (.alt (rStr "gcc") (rStr "gchp")) (.cat (rChar '-')
    (.cat (rOpt (.cat rRes (rChar '-')))
      (.cat (.alt (rStr "1Mon") (rStr "1Hr")) (.cat (rChar '-')
        (.cat (.alt rSemver rHash) (rOpt (rStr ".bd")))))))

/-- The difference-plot pattern diff dash sim dash sim. -/
def rDiff : Regex := .cat (rStr "diff-") (.cat rSim (.cat (rChar '-') rSim))

/-- re.match(caret simulation_re dollar, key). -/
def simFullMatch (s : String) : Bool := reFullMatch rSim s.toList

/-- re.match(caret diff- simulation_re - simulation_re dollar, key). -/
def diffFullMatch (s : String) : Bool := reFullMatch rDiff s.toList

/-- re.match(caret gchp, key): the key begins with the gchp token. -/
def gchpStart (s : String) : Bool := (reTryAt (rStr "gchp") s.toList).isSome

/-- re.search(semver_re, key), returning group(0). -/
def semverSearch (s : String) : Option String :=
  (reSearchIn rSemver s.toList).map (fun l => ⟨l⟩)

/- re.search(commit_hash_re, key): the pattern is a fixed run of seven
lowercase hexadecimal characters, so its search is precisely the leftmost
position whose next seven characters all satisfy the class. -/

/-- The seven characters at this position when they form a commit hash. -/
def takeHex7 (s : List Char) : Option (List Char) :=
  let t := s.take 7
  if t.length == 7 && t.all isHexLowerC then some t else Option.none

def hashSearchIn : List Char → Option (List Char)
  | [] => Option.none
  | c :: t =>
    match takeHex7 (c :: t) with
    | some m => some m
    | Option.none => hashSearchIn t

/-- re.search(commit_hash_re, key), returning group(0). -/
def hashSearch (s : String) : Option String := (hashSearchIn s.toList).map (fun l => ⟨l⟩)

/-- Python str.removesuffix(".bd"). -/
def removesuffixBd (s : String) : String :=
  if 3 ≤ s.toList.length && s.toList.drop (s.toList.length - 3) == ['.', 'b', 'd'] then
    ⟨s.toList.take (s.toList.length - 3)⟩
  else s

/- == PrimaryKeyClassification (src lines 56-91) == -/

structure PrimaryKeyClassification where
  classification : Option String
  api : Option String
  code_url : Option String
  commit_id : Option String
  deriving DecidableEq

/-- PrimaryKeyClassification.__post_init__ on a string key: the shadowed
lets replay the sequential field assignments, so a later commit-hash hit
overwrites an earlier semver hit. -/
def classify (primary_key : String) : PrimaryKeyClassification :=
  if simFullMatch primary_key then
    let repo := if gchpStart primary_key then "GCHP" else "GCClassic"
    let classification :=
      if gchpStart primary_key then "GCHP Simulation" else "GC-Classic Simulation"
    let state : Option String × Option String :=
      match semverSearch primary_key with
      | some sv =>
        let cid := removesuffixBd sv
        (some ("https://github.com/geoschem/" ++ repo ++ "/tree/" ++ cid), some cid)
      | Option.none => (Option.none, Option.none)
    let state :=
      match hashSearch primary_key with
      | some h =>
        let cid := removesuffixBd h
        (some ("https://github.com/geoschem/" ++ repo ++ "/commit/" ++ cid), some cid)
      | Option.none => state
    ⟨some classification, some "simulation", state.1, state.2⟩
  else if diffFullMatch primary_key then
    ⟨some "Difference Plots", some "difference", Option.none, Option.none⟩
  else
    ⟨some "Unknown", Option.none, Option.none, Option.none⟩

/-- PrimaryKeyClassification.__post_init__ on an arbitrary primary_key
argument: re.match raises TypeError unless the argument is a string. -/
def classifyPy : Option PyVal → Except PyErr PrimaryKeyClassification
  | some (.str s) => .ok (classify s)
  | _ => .error (.typeError "expected string or bytes-like object")

/- == RegistryEntryStage (src lines 117-139) == -/

structure RegistryEntryStage where
  name : Option PyVal
  completed : Option PyVal
  log_file : Option PyVal
  start_time : Option PyVal
  end_time : Option PyVal
  artifacts : Option PyVal
  public_artifacts : Option PyVal
  metadata : Option PyVal
  deriving DecidableEq

/-- RegistryEntryStage built with only the dynamodb_stage_result argument.
When that argument is Python None the dataclass defaults survive (empty
artifact lists, metadata the two-character brace text); any dict argument,
including the empty dict, is decoded and every field is then overwritten
with the dict.get result, which is None for a missing key. -/
def mkRegistryEntryStage (dynamodb_stage_result : Option PyDict) :
    Except PyErr RegistryEntryStage :=
  match dynamodb_stage_result with
  | Option.none =>
    .ok ⟨Option.none, Option.none, Option.none, Option.none, Option.none,
      some (.list .nil), some (.list .nil), some (.str "\x7b\x7d")⟩
  | some d => do
    let m ← dynamodb_decode_dict d
    .ok ⟨dGet m "Name", dGet m "Completed", dGet m "Log", dGet m "StartTime",
      dGet m "EndTime", dGet m "Artifacts", dGet m "PublicArtifacts", dGet m "Metadata"⟩

/- == RegistryEntry (src lines 94-114) == -/

structure RegistryEntry where
  primary_key : Option PyVal
  creation_date : Option PyVal
  execution_status : Option PyVal
  execution_site : Option PyVal
  s3_uri : Option PyVal
  description : Option PyVal
  primary_key_classification : PrimaryKeyClassification
  deriving DecidableEq

/-- RegistryEntry.__post_init__: with a scan result the fields are read
from the decoded mapping, otherwise the constructor arguments stand; in
both cases the classifier then runs on the primary key, raising TypeError
when that key is not a string. -/
def mkRegistryEntry (primary_key creation_date execution_status execution_site
    s3_uri description : Option PyVal) (dynamodb_scan_result : Option PyDict) :
    Except PyErr RegistryEntry :=
  match dynamodb_scan_result with
  | some d => do
    let m ← dynamodb_decode_dict d
    let pk := dGet m "InstanceID"
    let cls ← classifyPy pk
    .ok ⟨pk, dGet m "CreationDate", dGet m "ExecStatus", dGet m "Site",
      dGet m "S3Uri", dGet m "Description", cls⟩
  | Option.none => do
    let cls ← classifyPy primary_key
    .ok ⟨primary_key, creation_date, execution_status, execution_site,
      s3_uri, description, cls⟩

/- Python operations used when the stage list is pulled out of the raw
query mapping. -/

/-- Python subscript d[k] on a dict: KeyError when the key is absent. -/
def dSubscript (d : PyDict) (k : String) : Except PyErr PyVal :=
  match dGet d k with
  | some w => .ok w
  | Option.none => .error (.keyError k)

/-- Python subscript v[k] where v ought to be a dict. -/
def pySubscript (v : PyVal) (k : String) : Except PyErr PyVal :=
  match v with
  | .dict m => dSubscript m k
  | _ => .error (.typeError "object is not subscriptable")

/-- Python v.get(k, default): AttributeError when v is not a dict. -/
def pyDictGetD (v : PyVal) (k : String) (dflt : PyVal) : Except PyErr PyVal :=
  match v with
  | .dict m => .ok ((dGet m k).getD dflt)
  | _ => .error (.attributeError "get")

/-- The value must be a Python list to be measured and indexed. -/
def asPyList : PyVal → Except PyErr PyList
  | .list l => .ok l
  | _ => .error (.typeError "object is not a list")

def plen : PyList → Nat
  | .nil => 0
  | .cons _ t => plen t + 1

/-- List indexing, only ever used beneath the length guard. -/
def pNthD : PyList → Nat → PyVal
  | .nil, _ => .none
  | .cons v _, 0 => v
  | .cons _ t, n + 1 => pNthD t n

/-- The argument handed to RegistryEntryStage for position i:
stages[i].get(M-tag, empty dict) when the list is long enough, the empty
dict otherwise (src lines 152-153 and 172). -/
def stageArgVal (stages : PyList) (i : Nat) : Except PyErr PyVal :=
  if i + 1 ≤ plen stages then pyDictGetD (pNthD stages i) "M" (.dict .nil)
  else .ok (.dict .nil)

/-- RegistryEntryStage(dynamodb_stage_result=v) where v arrived from
stageArgVal: decoding iterates v.items(), so a non-dict raises. -/
def mkStageFromVal (v : PyVal) : Except PyErr RegistryEntryStage :=
  match v with
  | .dict d => mkRegistryEntryStage (some d)
  | _ => .error (.attributeError "items")

/- == RegistryEntrySimulation (src lines 142-155) == -/

structure RegistryEntrySimulation where
  base : RegistryEntry
  setup_run_directory : Option RegistryEntryStage
  run_simulation_directory : Option RegistryEntryStage
  deriving DecidableEq

/-- RegistryEntrySimulation.__post_init__ on a point-query result: the
base entry is built from the same mapping (the super call decodes all of
it), then the two stages are taken positionally from the raw Stages list. -/
def mkRegistryEntrySimulationQuery (q : PyDict) : Except PyErr RegistryEntrySimulation := do
  let base ← mkRegistryEntry Option.none Option.none Option.none Option.none
    Option.none Option.none (some q)
  let stagesTag ← dSubscript q "Stages"
  let stagesV ← pySubscript stagesTag "L"
  let stages ← asPyList stagesV
  let w0 ← stageArgVal stages 0
  let setup ← mkStageFromVal w0
  let w1 ← stageArgVal stages 1
  let runsim ← mkStageFromVal w1
  .ok ⟨base, some setup, some runsim⟩

/- == RegistryEntryDiff (src lines 158-174) == -/

structure RegistryEntryDiff where
  base : RegistryEntry
  run_gcpy_stage : Option RegistryEntryStage
  emissions_totals_link : Option PyVal
  global_mass_trop_link : Option PyVal
  global_mass_tropstrat_link : Option PyVal
  inventory_totals_link : Option PyVal
  oh_metrics_link : Option PyVal
  deriving DecidableEq

/-- RegistryEntryDiff.__post_init__ on a point-query result. -/
def mkRegistryEntryDiffQuery (q : PyDict) : Except PyErr RegistryEntryDiff := do
  let base ← mkRegistryEntry Option.none Option.none Option.none Option.none
    Option.none Option.none (some q)
  let stagesTag ← dSubscript q "Stages"
  let stagesV ← pySubscript stagesTag "L"
  let stages ← asPyList stagesV
  let w0 ← stageArgVal stages 0
  let g ← mkStageFromVal w0
  .ok ⟨base, some g, Option.none, Option.none, Option.none, Option.none, Option.none⟩

/- == NewDifferencePlot (src lines 177-212) == -/

/-- Python substring containment: pat in s. -/
def startsWithCharsB : List Char → List Char → Bool
  | [], _ => true
  | _ :: _, [] => false
  | a :: at2, b :: bt => a == b && startsWithCharsB at2 bt

def containsSub (pat : List Char) : List Char → Bool
  | [] => startsWithCharsB pat []
  | c :: t => startsWithCharsB pat (c :: t) || containsSub pat t

def strContains (s pat : String) : Bool := containsSub pat.toList s.toList

structure NewDifferencePlot where
  ref : String
  dev : String
  execution_site : String

/-- The cadence suffix of get_put_item: substring checks on ref in source
order, first hit winning (src lines 186-193). -/
def cadenceSuffix (ref : String) : Except PyErr String :=
  if strContains ref "-1Hr-" then .ok "1Hr"
  else if strContains ref "-1Day-" then .ok "1Day"
  else if strContains ref "-1Mon-" then .ok "1Mon"
  else .error (.runtimeError "No period regex matched reference key")

/-- The bucket root of get_put_item, selected by exact site match
(src lines 194-199). -/
def siteRootUri (site : String) : Except PyErr String :=
  if site == "AWS" then .ok "s3://benchmarks-cloud/diff-plots"
  else if site == "WUSTL" then .ok "s3://washu-benchmarks-cloud/diff-plots"
  else .error (.runtimeError "Invalid site.")

/-- NewDifferencePlot.get_put_item; date.today().isoformat() is passed in
as the today argument. -/
def NewDifferencePlot.get_put_item (p : NewDifferencePlot) (today : String) :
    Except PyErr PyDict := do
  let primary_key := "diff-" ++ p.ref ++ "-" ++ p.dev
  let s3_uri_suffix ← cadenceSuffix p.ref
  let s3_root ← siteRootUri p.execution_site
  let s3_uri := s3_root ++ "/" ++ s3_uri_suffix ++ "/" ++ primary_key
  dynamodb_encode_dict (pd [
    ("InstanceID", .str primary_key),
    ("CreationDate", .str today),
    ("ExecStatus", .str "PENDING"),
    ("S3Uri", .str s3_uri),
    ("Description", .str ("Benchmark plots for Ref=" ++ p.ref ++ " and Dev=" ++ p.dev ++
      " (" ++ s3_uri_suffix ++ ")")),
    ("Site", .str p.execution_site),
    ("Stages", .list .nil)])

/- == concrete sample inputs used by witnesses and counterexamples == -/

/-- A stage record whose every field is Python None. -/
def emptyStageAllNone : RegistryEntryStage :=
  ⟨Option.none, Option.none, Option.none, Option.none, Option.none, Option.none,
    Option.none, Option.none⟩

/-- A nested native value exercising every codec case. -/
def c3sample : PyVal :=
  .dict (pd [("a", .str "x"),
    ("b", .list (pl [.bool true, .dict (pd [("c", .str "y")])])),
    ("d", .bool false)])

/-- A point-query mapping whose Stages list has exactly one element. -/
def c2query : PyDict :=
  pd [("InstanceID", .dict (pd [("S", .str "x")])),
    ("Stages", .dict (pd [("L", .list (pl [
      .dict (pd [("M", .dict (pd [("Name", .dict (pd [("S", .str "setup")]))]))])]))]))]

/-- A point-query mapping whose single Stages element is the zero-key
mapping, which lacks the map-type tag. -/
def c10queryZero : PyDict :=
  pd [("InstanceID", .dict (pd [("S", .str "x")])),
    ("Stages", .dict (pd [("L", .list (pl [.dict .nil]))]))]

/-- A point-query mapping whose single Stages element is a single-key
mapping carrying a tag other than the map-type tag. -/
def c10queryOtherTag : PyDict :=
  pd [("InstanceID", .dict (pd [("S", .str "x")])),
    ("Stages", .dict (pd [("L", .list (pl [.dict (pd [("SS", .str "a")])]))]))]

/-- A scan mapping that lacks the InstanceID field. -/
def c9scanNoInstance : PyDict := pd [("CreationDate", .dict (pd [("S", .str "2022-03-24")]))]

/- ================= theorems ================= -/

/- helper lemmas for the codec round trip, by mutual structural induction -/

mutual
theorem roundtrip_val (v : PyVal) (h : isNative v = true) :
    (dynamodb_encode_item v).bind dynamodb_decode_item = .ok v := by
  cases v with
  | str s => rfl
  | bool b => rfl
  | none => simp [isNative] at h
  | list l =>
    have hl := roundtrip_list l (by simpa [isNative] using h)
    cases he : dynamodb_encode_item_list l with
    | error e => rw [he] at hl; simp [Except.bind] at hl
    | ok es =>
      rw [he] at hl
      simp only [Except.bind] at hl
      simp [dynamodb_encode_item, dynamodb_decode_item, he, Except.map, Except.bind, hl]
  | dict d =>
    have hd := roundtrip_dict d (by simpa [isNative] using h)
    cases he : dynamodb_encode_dict d with
    | error e => rw [he] at hd; simp [Except.bind] at hd
    | ok m =>
      rw [he] at hd
      simp only [Except.bind] at hd
      simp [dynamodb_encode_item, dynamodb_decode_item, he, Except.map, Except.bind, hd]
theorem roundtrip_list (l : PyList) (h : isNativeList l = true) :
    (dynamodb_encode_item_list l).bind dynamodb_decode_item_list = .ok l := by
  cases l with
  | nil => rfl
  | cons v t =>
    have h1 : isNative v = true := by
      have := h; simp [isNativeList] at this; exact this.1
    have h2 : isNativeList t = true := by
      have := h; simp [isNativeList] at this; exact this.2
    have hv := roundtrip_val v h1
    have ht := roundtrip_list t h2
    cases hev : dynamodb_encode_item v with
    | error e => rw [hev] at hv; simp [Except.bind] at hv
    | ok w =>
      rw [hev] at hv; simp only [Except.bind] at hv
      cases het : dynamodb_encode_item_list t with
      | error e => rw [het] at ht; simp [Except.bind] at ht
      | ok ws =>
        rw [het] at ht; simp only [Except.bind] at ht
        simp [dynamodb_encode_item_list, dynamodb_decode_item_list, hev, het, hv, ht,
          Except.bind, bind, Except.map]
theorem roundtrip_dict (d : PyDict) (h : isNativeDict d = true) :
    (dynamodb_encode_dict d).bind dynamodb_decode_dict = .ok d := by
  cases d with
  | nil => rfl
  | cons k v t =>
    have h1 : isNative v = true := by
      have := h; simp [isNativeDict] at this; exact this.1
    have h2 : isNativeDict t = true := by
      have := h; simp [isNativeDict] at this; exact this.2
    have hv := roundtrip_val v h1
    have ht := roundtrip_dict t h2
    cases hev : dynamodb_encode_item v with
    | error e => rw [hev] at hv; simp [Except.bind] at hv
    | ok w =>
      rw [hev] at hv; simp only [Except.bind] at hv
      cases het : dynamodb_encode_dict t with
      | error e => rw [het] at ht; simp [Except.bind] at ht
      | ok ws =>
        rw [het] at ht; simp only [Except.bind] at ht
        simp [dynamodb_encode_dict, dynamodb_decode_dict, hev, het, hv, ht,
          Except.bind, bind, Except.map]
end

/-- C3: for every native value v built from strings, booleans, ordered
sequences and mappings, recursively and in any nesting,
decode(encode(v)) == v. -/
theorem c3_decode_encode_roundtrip (v : PyVal) (h : isNative v = true) :
    (dynamodb_encode_item v).bind dynamodb_decode_item = .ok v :=
  roundtrip_val v h

/-- Witness for C3 at a concrete nested native value. -/
theorem c3_decode_encode_roundtrip_witness :
    isNative c3sample = true ∧
    (dynamodb_encode_item c3sample).bind dynamodb_decode_item = .ok c3sample :=
  ⟨rfl, c3_decode_encode_roundtrip c3sample rfl⟩

/-- C5: decoding a tagged-value node that is a mapping with zero keys or
with two or more keys fails with the MalformedEncoding error (the
ValueError of the source); a single-key node succeeds at that node,
recursing into list and map tag payloads and returning scalar payloads
unchanged. -/
theorem c5_decode_node_cardinality :
    dynamodb_decode_item (.dict .nil) =
      .error (.valueError "Number of key-value pairs in DynamoDB dict is not one.")
    ∧ (∀ d : PyDict, 2 ≤ dictLen d → dynamodb_decode_item (.dict d) =
        .error (.valueError "Number of key-value pairs in DynamoDB dict is not one."))
    ∧ (∀ k s, dynamodb_decode_item (.dict (.cons k (.str s) .nil)) = .ok (.str s))
    ∧ (∀ k b, dynamodb_decode_item (.dict (.cons k (.bool b) .nil)) = .ok (.bool b))
    ∧ (∀ k, dynamodb_decode_item (.dict (.cons k .none .nil)) = .ok .none)
    ∧ (∀ k es, dynamodb_decode_item (.dict (.cons k (.list es) .nil)) =
        (dynamodb_decode_item_list es).map PyVal.list)
    ∧ (∀ k m, dynamodb_decode_item (.dict (.cons k (.dict m) .nil)) =
        (dynamodb_decode_dict m).map PyVal.dict) := by
  refine ⟨rfl, ?_, fun k s => rfl, fun k b => rfl, fun k => rfl, fun k es => rfl, fun k m => rfl⟩
  intro d hd
  match d with
  | .nil => simp [dictLen] at hd
  | .cons _ _ .nil => simp [dictLen] at hd
  | .cons _ _ (.cons _ _ _) => rfl

/-- Witness for C5 at a concrete two-key mapping. -/
theorem c5_decode_node_cardinality_witness :
    2 ≤ dictLen (pd [("a", .str "x"), ("b", .str "y")]) ∧
    dynamodb_decode_item (.dict (pd [("a", .str "x"), ("b", .str "y")])) =
      .error (.valueError "Number of key-value pairs in DynamoDB dict is not one.") :=
  ⟨by decide, c5_decode_node_cardinality.2.1 _ (by decide)⟩

/-- String concatenation is associative (used to normalise the built
storage URI and description strings). -/
theorem strApp_assoc (a b c : String) : a ++ b ++ c = a ++ (b ++ c) := by
  cases a with
  | mk la => cases b with
    | mk lb => cases c with
      | mk lc =>
        show String.mk ((la ++ lb) ++ lc) = String.mk (la ++ (lb ++ lc))
        rw [List.append_assoc]

/-- C6: for every ref and dev with ref containing the substring -1Hr- and
site AWS, the built diff-request wire item has primary key diff-ref-dev,
storage URI s3://benchmarks-cloud/diff-plots/1Hr/diff-ref-dev, execution
status PENDING, an empty stage list, and a description naming ref, dev and
the cadence, all encoded by the tagged-value codec. -/
theorem c6_new_diff_request (ref dev today : String) (h : strContains ref "-1Hr-" = true) :
    NewDifferencePlot.get_put_item ⟨ref, dev, "AWS"⟩ today =
      .ok (pd [
        ("InstanceID", .dict (pd [("S", .str ("diff-" ++ ref ++ "-" ++ dev))])),
        ("CreationDate", .dict (pd [("S", .str today)])),
        ("ExecStatus", .dict (pd [("S", .str "PENDING")])),
        ("S3Uri", .dict (pd [("S", .str ("s3://benchmarks-cloud/diff-plots/1Hr/" ++
          ("diff-" ++ ref ++ "-" ++ dev)))])),
        ("Description", .dict (pd [("S", .str ("Benchmark plots for Ref=" ++ ref ++
          " and Dev=" ++ dev ++ " (1Hr)"))])),
        ("Site", .dict (pd [("S", .str "AWS")])),
        ("Stages", .dict (pd [("L", .list .nil)]))]) := by
  simp only [NewDifferencePlot.get_put_item, cadenceSuffix, siteRootUri, h, if_true,
    Except.bind, bind, pure, pd, dynamodb_encode_dict, dynamodb_encode_item]
  simp only [strApp_assoc]
  rfl

/-- Witness for C6 at concrete ref, dev and date. -/
theorem c6_new_diff_request_witness :
    strContains "gcc-1Hr-483b659" "-1Hr-" = true ∧
    NewDifferencePlot.get_put_item ⟨"gcc-1Hr-483b659", "gcc-1Hr-f9a901a", "AWS"⟩ "2022-01-01" =
      .ok (pd [
        ("InstanceID", .dict (pd [("S", .str "diff-gcc-1Hr-483b659-gcc-1Hr-f9a901a")])),
        ("CreationDate", .dict (pd [("S", .str "2022-01-01")])),
        ("ExecStatus", .dict (pd [("S", .str "PENDING")])),
        ("S3Uri", .dict (pd [("S",
          .str "s3://benchmarks-cloud/diff-plots/1Hr/diff-gcc-1Hr-483b659-gcc-1Hr-f9a901a")])),
        ("Description", .dict (pd [("S",
          .str "Benchmark plots for Ref=gcc-1Hr-483b659 and Dev=gcc-1Hr-f9a901a (1Hr)")])),
        ("Site", .dict (pd [("S", .str "AWS")])),
        ("Stages", .dict (pd [("L", .list .nil)]))]) :=
  ⟨by decide, c6_new_diff_request "gcc-1Hr-483b659" "gcc-1Hr-f9a901a" "2022-01-01" (by decide)⟩

/-- C7: building a diff-request fails with the no-period RuntimeError when
ref contains none of -1Hr-, -1Day-, -1Mon- (checked in that order, first
hit winning), and fails with the invalid-site RuntimeError when the site
is neither AWS nor WUSTL; it never silently produces a storage item on
such inputs. -/
theorem c7_new_diff_request_failfast (ref dev site today : String) :
    (strContains ref "-1Hr-" = false → strContains ref "-1Day-" = false →
      strContains ref "-1Mon-" = false →
      NewDifferencePlot.get_put_item ⟨ref, dev, site⟩ today =
        .error (.runtimeError "No period regex matched reference key"))
    ∧ (strContains ref "-1Hr-" = true → cadenceSuffix ref = .ok "1Hr")
    ∧ (strContains ref "-1Hr-" = false → strContains ref "-1Day-" = true →
        cadenceSuffix ref = .ok "1Day")
    ∧ (∀ suf, cadenceSuffix ref = .ok suf → site ≠ "AWS" → site ≠ "WUSTL" →
      NewDifferencePlot.get_put_item ⟨ref, dev, site⟩ today =
        .error (.runtimeError "Invalid site.")) := by
  refine ⟨?_, ?_, ?_, ?_⟩
  · intro h1 h2 h3
    simp [NewDifferencePlot.get_put_item, cadenceSuffix, h1, h2, h3, Except.bind, bind]
  · intro h
    simp [cadenceSuffix, h]
  · intro h1 h2
    simp [cadenceSuffix, h1, h2]
  · intro suf hs hA hW
    simp [NewDifferencePlot.get_put_item, hs, siteRootUri, hA, hW, Except.bind, bind]

/-- Witness for C7: a ref with no cadence substring fails with the
no-period error, and site Mars fails with the invalid-site error. -/
theorem c7_new_diff_request_failfast_witness :
    strContains "gcc-v14" "-1Hr-" = false ∧
    strContains "gcc-v14" "-1Day-" = false ∧
    strContains "gcc-v14" "-1Mon-" = false ∧
    NewDifferencePlot.get_put_item ⟨"gcc-v14", "d", "AWS"⟩ "2022-01-01" =
      .error (.runtimeError "No period regex matched reference key") ∧
    cadenceSuffix "gcc-1Hr-a" = .ok "1Hr" ∧
    NewDifferencePlot.get_put_item ⟨"gcc-1Hr-a", "d", "Mars"⟩ "2022-01-01" =
      .error (.runtimeError "Invalid site.") :=
  ⟨by decide, by decide, by decide,
    (c7_new_diff_request_failfast "gcc-v14" "d" "AWS" "2022-01-01").1
      (by decide) (by decide) (by decide),
    (c7_new_diff_request_failfast "gcc-1Hr-a" "d" "Mars" "2022-01-01").2.1 (by decide),
    (c7_new_diff_request_failfast "gcc-1Hr-a" "d" "Mars" "2022-01-01").2.2.2 "1Hr"
      rfl (by decide) (by decide)⟩

/-- C9: constructing a registry entry whose primary key is absent — a bare
entry with no arguments, or one built from a scan mapping lacking the
InstanceID field — raises TypeError during classification rather than
degrading to Unknown: the classifier is only total over actual strings. -/
theorem c9_absent_primary_key_raises :
    mkRegistryEntry Option.none Option.none Option.none Option.none Option.none Option.none
      Option.none = .error (.typeError "expected string or bytes-like object")
    ∧ (∀ (d m : PyDict), dynamodb_decode_dict d = .ok m → dGet m "InstanceID" = Option.none →
        mkRegistryEntry Option.none Option.none Option.none Option.none Option.none Option.none
          (some d) = .error (.typeError "expected string or bytes-like object"))
    ∧ classifyPy Option.none = .error (.typeError "expected string or bytes-like object") := by
  refine ⟨rfl, ?_, rfl⟩
  intro d m hd hm
  simp [mkRegistryEntry, hd, hm, classifyPy, Except.bind, bind]

/-- Witness for C9 at a concrete scan mapping lacking InstanceID. -/
theorem c9_absent_primary_key_raises_witness :
    dynamodb_decode_dict c9scanNoInstance = .ok (pd [("CreationDate", .str "2022-03-24")]) ∧
    dGet (pd [("CreationDate", .str "2022-03-24")]) "InstanceID" = Option.none ∧
    mkRegistryEntry Option.none Option.none Option.none Option.none Option.none Option.none
      (some c9scanNoInstance) = .error (.typeError "expected string or bytes-like object") :=
  ⟨rfl, rfl, c9_absent_primary_key_raises.2.1 c9scanNoInstance _ rfl rfl⟩

/-- Counterexample to C2 as stated: on a point-query mapping whose Stages
list has length 1 the second stage is present, but its artifact lists and
metadata are Python None — not the empty list and not the two-character
brace text — because the empty dict handed to RegistryEntryStage is not
None, so every dataclass default is overwritten by a dict.get miss. -/
theorem c2_stage_list_length_one_counterexample :
    mkRegistryEntrySimulationQuery c2query =
      .ok ⟨⟨some (.str "x"), Option.none, Option.none, Option.none, Option.none, Option.none,
        ⟨some "Unknown", Option.none, Option.none, Option.none⟩⟩,
        some ⟨some (.str "setup"), Option.none, Option.none, Option.none, Option.none,
          Option.none, Option.none, Option.none⟩,
        some emptyStageAllNone⟩
    ∧ emptyStageAllNone.metadata = Option.none
    ∧ emptyStageAllNone.artifacts = Option.none
    ∧ emptyStageAllNone.public_artifacts = Option.none
    ∧ (Option.none : Option PyVal) ≠ some (.str "\x7b\x7d")
    ∧ (Option.none : Option PyVal) ≠ some (.list .nil) :=
  ⟨by decide, rfl, rfl, rfl, by simp, by simp⟩

/-- C2 (amended): for every simulation entry built from a full point-query
mapping whose Stages list has length 1, the first stage is populated from
the list's first element and the second stage is built from the empty
mapping — present (not absent) — with every field Python None: the scalar
fields, both artifact lists and the metadata are all absent. -/
theorem c2_stage_list_length_one (q m sv : PyDict) (st0 : PyVal)
    (stg0 : RegistryEntryStage) (cls : PrimaryKeyClassification)
    (hm : dynamodb_decode_dict q = .ok m)
    (hcls : classifyPy (dGet m "InstanceID") = .ok cls)
    (hst : dGet q "Stages" = some (.dict sv))
    (hl : dGet sv "L" = some (.list (.cons st0 .nil)))
    (h0 : (pyDictGetD st0 "M" (.dict .nil)).bind mkStageFromVal = .ok stg0) :
    mkRegistryEntrySimulationQuery q =
      .ok ⟨⟨dGet m "InstanceID", dGet m "CreationDate", dGet m "ExecStatus", dGet m "Site",
        dGet m "S3Uri", dGet m "Description", cls⟩, some stg0, some emptyStageAllNone⟩ := by
  have h1 : mkStageFromVal (.dict .nil) = .ok emptyStageAllNone := rfl
  cases hw : pyDictGetD st0 "M" (.dict .nil) with
  | error e => rw [hw] at h0; simp [Except.bind] at h0
  | ok w0 =>
    rw [hw] at h0; simp only [Except.bind] at h0
    simp [mkRegistryEntrySimulationQuery, mkRegistryEntry, hm, hcls, dSubscript, hst,
      pySubscript, hl, asPyList, stageArgVal, plen, pNthD, hw, h0, h1,
      Except.bind, bind, pure]

/-- Witness for the amended C2 at the concrete one-stage query. -/
theorem c2_stage_list_length_one_witness :
    dynamodb_decode_dict c2query = .ok (pd [("InstanceID", .str "x"),
      ("Stages", .list (pl [.dict (pd [("Name", .str "setup")])]))])
    ∧ mkRegistryEntrySimulationQuery c2query =
      .ok ⟨⟨some (.str "x"), Option.none, Option.none, Option.none, Option.none, Option.none,
        ⟨some "Unknown", Option.none, Option.none, Option.none⟩⟩,
        some ⟨some (.str "setup"), Option.none, Option.none, Option.none, Option.none,
          Option.none, Option.none, Option.none⟩,
        some emptyStageAllNone⟩ :=
  ⟨rfl, c2_stage_list_length_one c2query
    (pd [("InstanceID", .str "x"), ("Stages", .list (pl [.dict (pd [("Name", .str "setup")])]))])
    (pd [("L", .list (pl [.dict (pd [("M",
      .dict (pd [("Name", .dict (pd [("S", .str "setup")]))]))])]))])
    (.dict (pd [("M", .dict (pd [("Name", .dict (pd [("S", .str "setup")]))]))]))
    ⟨some (.str "setup"), Option.none, Option.none, Option.none, Option.none, Option.none,
      Option.none, Option.none⟩
    ⟨some "Unknown", Option.none, Option.none, Option.none⟩
    rfl rfl rfl rfl rfl⟩

/-- Counterexample to C10 as stated: a Stages list element that is the
zero-key mapping lacks the map-type tag, yet constructing the entry raises
the MalformedEncoding ValueError, because the base-class step decodes the
whole query mapping and applies the single-key cardinality check to that
element before the positional stage-building runs. -/
theorem c10_missing_map_tag_counterexample :
    dGet PyDict.nil "M" = Option.none
    ∧ mkRegistryEntrySimulationQuery c10queryZero =
        .error (.valueError "Number of key-value pairs in DynamoDB dict is not one.")
    ∧ mkRegistryEntryDiffQuery c10queryZero =
        .error (.valueError "Number of key-value pairs in DynamoDB dict is not one.") :=
  ⟨rfl, by decide, by decide⟩

/-- C10 (amended): the positional stage-building itself never applies the
codec's single-key cardinality check: a first Stages element that is a
mapping without the map-type tag key makes the stage argument default to
the empty mapping, and whenever entry construction succeeds on such a
query (e.g. the element is a single-key mapping carrying a different tag,
which the entry-wide decode accepts) the resulting first stage has every
field absent; a zero-key or multi-key element instead fails the entry-wide
decode of the base-class step. -/
theorem c10_missing_map_tag_stage_default (q sv d0 : PyDict) (rest : PyList)
    (hst : dGet q "Stages" = some (.dict sv))
    (hl : dGet sv "L" = some (.list (.cons (.dict d0) rest)))
    (hM : dGet d0 "M" = Option.none) :
    (pyDictGetD (.dict d0) "M" (.dict .nil)).bind mkStageFromVal = .ok emptyStageAllNone
    ∧ (∀ e, mkRegistryEntrySimulationQuery q = .ok e →
        e.setup_run_directory = some emptyStageAllNone)
    ∧ (∀ ed, mkRegistryEntryDiffQuery q = .ok ed →
        ed.run_gcpy_stage = some emptyStageAllNone) := by
  have h1 : (pyDictGetD (.dict d0) "M" (.dict .nil)).bind mkStageFromVal =
      .ok emptyStageAllNone := by
    simp [pyDictGetD, hM, Except.bind]
    rfl
  have hs0 : stageArgVal (.cons (.dict d0) rest) 0 = .ok (.dict .nil) := by
    simp [stageArgVal, plen, pNthD, pyDictGetD, hM]
  have hempty : mkStageFromVal (.dict .nil) = .ok emptyStageAllNone := rfl
  refine ⟨h1, ?_, ?_⟩
  · intro e he
    unfold mkRegistryEntrySimulationQuery at he
    cases hb : mkRegistryEntry Option.none Option.none Option.none Option.none Option.none
        Option.none (some q) with
    | error err => rw [hb] at he; simp [Except.bind, bind] at he
    | ok b =>
      rw [hb] at he
      simp only [Except.bind, bind, dSubscript, hst, pySubscript, hl, asPyList, pure,
        hs0, hempty] at he
      split at he
      · simp at he
      · split at he
        · simp at he
        · simp only [Except.ok.injEq] at he
          rw [← he]
  · intro ed hed
    unfold mkRegistryEntryDiffQuery at hed
    cases hb : mkRegistryEntry Option.none Option.none Option.none Option.none Option.none
        Option.none (some q) with
    | error err => rw [hb] at hed; simp [Except.bind, bind] at hed
    | ok b =>
      rw [hb] at hed
      simp only [Except.bind, bind, dSubscript, hst, pySubscript, hl, asPyList, pure,
        hs0, hempty] at hed
      simp only [Except.ok.injEq] at hed
      rw [← hed]

/-- Witness for the amended C10 at the concrete other-tag query. -/
theorem c10_missing_map_tag_stage_default_witness :
    dGet (pd [("SS", .str "a")]) "M" = Option.none
    ∧ mkRegistryEntrySimulationQuery c10queryOtherTag =
      .ok ⟨⟨some (.str "x"), Option.none, Option.none, Option.none, Option.none, Option.none,
        ⟨some "Unknown", Option.none, Option.none, Option.none⟩⟩,
        some emptyStageAllNone, some emptyStageAllNone⟩
    ∧ (⟨⟨some (.str "x"), Option.none, Option.none, Option.none, Option.none, Option.none,
        ⟨some "Unknown", Option.none, Option.none, Option.none⟩⟩,
        some emptyStageAllNone, some emptyStageAllNone⟩ :
        RegistryEntrySimulation).setup_run_directory = some emptyStageAllNone :=
  ⟨rfl, by decide,
    (c10_missing_map_tag_stage_default c10queryOtherTag
      (pd [("L", .list (pl [.dict (pd [("SS", .str "a")])]))])
      (pd [("SS", .str "a")]) .nil rfl rfl rfl).2.1
      ⟨⟨some (.str "x"), Option.none, Option.none, Option.none, Option.none, Option.none,
        ⟨some "Unknown", Option.none, Option.none, Option.none⟩⟩,
        some emptyStageAllNone, some emptyStageAllNone⟩ (by decide)⟩

/-- The seven characters claimed by takeHex7 are seven hexadecimal
characters. -/
theorem takeHex7_props (s m : List Char) (h : takeHex7 s = some m) :
    m.length = 7 ∧ m.all isHexLowerC = true := by
  simp only [takeHex7] at h
  split at h
  · rename_i hc
    cases h
    simp only [Bool.and_eq_true, beq_iff_eq] at hc
    exact ⟨hc.1, hc.2⟩
  · cases h

/-- Any commit-hash search result is seven hexadecimal characters. -/
theorem hashSearchIn_props (s : List Char) (m : List Char) (h : hashSearchIn s = some m) :
    m.length = 7 ∧ m.all isHexLowerC = true := by
  induction s with
  | nil => simp [hashSearchIn] at h
  | cons c t ih =>
    simp only [hashSearchIn] at h
    cases hk : takeHex7 (c :: t) with
    | some w =>
      rw [hk] at h
      cases h
      exact takeHex7_props (c :: t) m hk
    | none =>
      rw [hk] at h
      exact ih h

/-- Stripping the .bd marker from a commit-hash search result is the
identity: a seven-character hexadecimal string cannot end in .bd. -/
theorem hashSearch_stripBd (s h : String) (hh : hashSearch s = some h) :
    removesuffixBd h = h := by
  unfold hashSearch at hh
  cases hm : hashSearchIn s.toList with
  | none => rw [hm] at hh; cases hh
  | some m =>
    rw [hm] at hh
    simp only [Option.map_some'] at hh
    obtain ⟨h7, hhex⟩ := hashSearchIn_props s.toList m hm
    cases hh
    unfold removesuffixBd
    have hdata : (String.mk m).toList = m := rfl
    rw [hdata, h7]
    have hnd : (m.drop (7 - 3) == ['.', 'b', 'd']) = false := by
      cases hq : m.drop (7 - 3) == ['.', 'b', 'd'] with
      | false => rfl
      | true =>
        have heq : m.drop (7 - 3) = ['.', 'b', 'd'] := eq_of_beq hq
        have hmem : '.' ∈ m := by
          have hin : '.' ∈ m.drop (7 - 3) := by rw [heq]; simp
          exact List.mem_of_mem_drop hin
        have := (List.all_eq_true.mp hhex) '.' hmem
        simp [isHexLowerC] at this
    rw [hnd]
    simp

/-- C1: for every primary key matching the simulation grammar the version
extraction runs the semver search and then the commit-hash search: when
only a semver substring is present the commit id is that match with a
trailing .bd marker stripped and the code URL is the tree URL of the
engine's repository; when a seven-character lowercase-hex substring is
present — whether or not a semver substring also matched — the final
commit id is the hash match itself and the code URL is the commit URL, the
hash result overwriting any semver result; at the scenario key
gcc-1Hr-f9a901a.bd the classification is GC-Classic Simulation with
commit id f9a901a and the GCClassic commit URL. -/
theorem c1_version_extraction (key : String) (hsim : simFullMatch key = true) :
    (hashSearch key = Option.none → ∀ sv, semverSearch key = some sv →
      classify key = ⟨some (if gchpStart key then "GCHP Simulation" else "GC-Classic Simulation"),
        some "simulation",
        some ("https://github.com/geoschem/" ++ (if gchpStart key then "GCHP" else "GCClassic")
          ++ "/tree/" ++ removesuffixBd sv),
        some (removesuffixBd sv)⟩)
    ∧ (∀ hsh, hashSearch key = some hsh →
      classify key = ⟨some (if gchpStart key then "GCHP Simulation" else "GC-Classic Simulation"),
        some "simulation",
        some ("https://github.com/geoschem/" ++ (if gchpStart key then "GCHP" else "GCClassic")
          ++ "/commit/" ++ hsh),
        some hsh⟩)
    ∧ classify "gcc-1Hr-f9a901a.bd" = ⟨some "GC-Classic Simulation", some "simulation",
        some "https://github.com/geoschem/GCClassic/commit/f9a901a", some "f9a901a"⟩ := by
  refine ⟨?_, ?_, by decide⟩
  · intro hn sv hsv
    simp [classify, hsim, hsv, hn]
  · intro hsh hh
    have hs := hashSearch_stripBd key hsh hh
    cases hv : semverSearch key with
    | none => simp [classify, hsim, hh, hv, hs]
    | some sv => simp [classify, hsim, hh, hv, hs]

/-- Witness for C1 at the scenario key, where the hash branch fires. -/
theorem c1_version_extraction_witness :
    simFullMatch "gcc-1Hr-f9a901a.bd" = true
    ∧ hashSearch "gcc-1Hr-f9a901a.bd" = some "f9a901a"
    ∧ classify "gcc-1Hr-f9a901a.bd" = ⟨some "GC-Classic Simulation", some "simulation",
        some "https://github.com/geoschem/GCClassic/commit/f9a901a", some "f9a901a"⟩ :=
  ⟨by decide, by decide,
    (c1_version_extraction "gcc-1Hr-f9a901a.bd" (by decide)).2.1 "f9a901a" (by decide)⟩

/-- C4: classification is a pure total function of the primary-key string
— on every string it returns without raising — and any string matching
neither the simulation nor the difference grammar yields Unknown with no
api route, no code URL and no commit id. -/
theorem c4_classifier_total (key : String) :
    classifyPy (some (.str key)) = .ok (classify key)
    ∧ (simFullMatch key = false → diffFullMatch key = false →
        classify key = ⟨some "Unknown", Option.none, Option.none, Option.none⟩) := by
  refine ⟨rfl, ?_⟩
  intro h1 h2
  simp [classify, h1, h2]

/-- Witness for C4 at a concrete unmatched key. -/
theorem c4_classifier_total_witness :
    simFullMatch "hello" = false ∧ diffFullMatch "hello" = false
    ∧ classify "hello" = ⟨some "Unknown", Option.none, Option.none, Option.none⟩ :=
  ⟨by decide, by decide, (c4_classifier_total "hello").2 (by decide) (by decide)⟩

/-- C8: every key matching the simulation grammar classifies as GCHP
Simulation when it starts with the gchp token and GC-Classic Simulation
otherwise, with api route simulation in both cases; in particular the
spec's six concrete keys classify as stated. -/
theorem c8_engine_classification :
    (∀ key, simFullMatch key = true →
      (classify key).classification =
        some (if gchpStart key then "GCHP Simulation" else "GC-Classic Simulation")
      ∧ (classify key).api = some "simulation")
    ∧ (classify "gchp-1Mon-13.4.0-rc.3").classification = some "GCHP Simulation"
    ∧ (classify "gchp-1Mon-13.4.0-rc.3.bd").classification = some "GCHP Simulation"
    ∧ (classify "gchp-c24-1Mon-13.4.0-rc.3").classification = some "GCHP Simulation"
    ∧ (classify "gcc-1Hr-483b659").classification = some "GC-Classic Simulation"
    ∧ (classify "gcc-1Hr-483b659.bd").classification = some "GC-Classic Simulation"
    ∧ (classify "gcc-4x5-1Hr-483b659").classification = some "GC-Classic Simulation" := by
  refine ⟨?_, by decide, by decide, by decide, by decide, by decide, by decide⟩
  intro key h
  constructor
  · cases hv : semverSearch key with
    | none =>
      cases hh : hashSearch key with
      | none => simp [classify, h, hv, hh]
      | some w => simp [classify, h, hv, hh]
    | some sv =>
      cases hh : hashSearch key with
      | none => simp [classify, h, hv, hh]
      | some w => simp [classify, h, hv, hh]
  · cases hv : semverSearch key with
    | none =>
      cases hh : hashSearch key with
      | none => simp [classify, h, hv, hh]
      | some w => simp [classify, h, hv, hh]
    | some sv =>
      cases hh : hashSearch key with
      | none => simp [classify, h, hv, hh]
      | some w => simp [classify, h, hv, hh]

/-- Witness for C8 at a concrete resolution-bearing GC-Classic key. -/
theorem c8_engine_classification_witness :
    simFullMatch "gcc-4x5-1Hr-483b659" = true
    ∧ (classify "gcc-4x5-1Hr-483b659").classification = some "GC-Classic Simulation"
    ∧ (classify "gcc-4x5-1Hr-483b659").api = some "simulation" :=
  ⟨by decide, (c8_engine_classification.1 "gcc-4x5-1Hr-483b659" (by decide)).1,
    (c8_engine_classification.1 "gcc-4x5-1Hr-483b659" (by decide)).2⟩
